import Mathlib

/-!
Shallow embedding of the core logic of `kmb-eta-cli` (`src/main.rs`):
a command-line client that loads a route directory and a stop directory
from a transit open-data feed, and answers route-info, ETA and listing
queries.  Pure data transformations are embedded as Lean functions; the
external RFC3339 timestamp parser (the `chrono` crate) is a parameter
`parseRfc : String → Option Int` returning epoch seconds; the two
network fetches of an ETA query are fields of an environment and their
issuance is recorded in an explicit event trace.
-/

set_option autoImplicit false

namespace KmbEta

/-- Mirrors the Rust struct `RouteInfo` (one route variant of the route
directory): route number, service type, mapped direction word, origin and
destination display names. -/
structure RouteInfo where
  route : String
  service_type : Int
  direction : String
  orig : String
  dest : String
deriving Repr, DecidableEq

/-- Mirrors the Rust struct `RouteEtaInfo`: one display-ready output row of
an ETA query (`seq`, stop name, and three ETA slots). -/
structure RouteEtaInfo where
  seq : String
  stop_name : String
  t1 : String
  t2 : String
  t3 : String
deriving Repr, DecidableEq

/-- A JSON value as far as `parse_timestmap` inspects it: either a string
or anything else (null, number, absent field...). -/
inductive JsonVal where
  | str (s : String)
  | other
deriving Repr, DecidableEq

/-- One row of the route-stop feed (`data[i]` of the route-stop response):
a sequence number and a stop id. -/
structure RouteStopRow where
  seq : Int
  stop : String
deriving Repr, DecidableEq

/-- One row of the arrival feed (`data[i]` of the route-eta response):
direction token, stop sequence number, arrival slot (`eta_seq`), and the
raw `eta` timestamp value. -/
structure EtaRow where
  dir : String
  seq : Int
  eta_seq : Int
  eta : JsonVal
deriving Repr, DecidableEq

/-- The arrival feed body: its own `generated_timestamp` field and the
list of arrival rows. -/
structure EtaFeed where
  generated_timestamp : JsonVal
  data : List EtaRow

/-- Association-list lookup, modelling `HashMap::get` on the directories
(first matching key wins; the loaders below keep keys distinct). -/
def lookupA {α : Type} : List (String × α) → String → Option α
  | [], _ => none
  | (k, v) :: rest, key => if k = key then some v else lookupA rest key

/-- Environment of one invocation: the two loaded directories and the two
per-query fetches (route-stop feed and arrival feed), plus the external
RFC3339 parser. -/
structure Env where
  routes : List (String × List RouteInfo)
  stops : List (String × String)
  routeStopFeed : String → String → Int → List RouteStopRow
  etaFeed : String → Int → EtaFeed
  parseRfc : String → Option Int

/-- Error taxonomy of the query path, one constructor per failure exit of
the source (the spec's names): the empty-filter validation error, the
`generated_timestamp` parse failure, the stop-directory `unwrap` on a
missing stop id, and `main`'s inbound/outbound flag usage error. -/
inductive Err where
  | unknownRouteVariant (route direction : String) (service_type : Int)
  | invalidFeedTimestamp (msg : String)
  | unknownStop (stop_id : String)
  | flagsError
deriving Repr, DecidableEq

/-- Observable remote-fetch/lookup events of an ETA query, in issue
order: the route-directory validation lookup, the route-stop fetch, the
arrival-feed fetch. -/
inductive FetchEvent where
  | routeLookup (route : String)
  | fetchRouteStop (route direction : String) (service_type : Int)
  | fetchEta (route : String) (service_type : Int)
deriving Repr, DecidableEq

/-- Rust's `format!("{:>w}", x)`: decimal rendering left-padded with
spaces to at least `w` characters. -/
def padLeft (w : Nat) (s : String) : String :=
  String.mk (List.replicate (w - s.length) ' ') ++ s

/-- The closure `parse_timestmap` of `search_route_eta`: accept only a
JSON string that the RFC3339 parser accepts, returning epoch seconds;
anything else is an error. -/
def parse_timestmap (parseRfc : String → Option Int) (v : JsonVal) : Except String Int :=
  match v with
  | JsonVal.str s =>
    match parseRfc s with
    | some t => Except.ok t
    | none => Except.error ("Failed to parse timestamp string " ++ s)
  | JsonVal.other => Except.error "Failed to parse timestamp string"

/-- The countdown rendering of `search_route_eta` lines 231-242 applied to
an already-computed delta: `format!("{:>3}m {:>2}s", d / 60, d % 60)` when
the delta is positive, the literal `LEAVING` otherwise.  `Int.tdiv` and
`Int.tmod` are Rust's truncating `/` and `%` on `i64`. -/
def formatEtaDiff (eta_diff : Int) : String :=
  if eta_diff > 0 then
    padLeft 3 (toString (Int.tdiv eta_diff 60)) ++ "m " ++
      padLeft 2 (toString (Int.tmod eta_diff 60)) ++ "s"
  else "LEAVING"

/-- The full per-row ETA cell: parse the row's `eta` value, render the
countdown against the feed reference timestamp on success, and degrade to
the empty string on parse failure (`Err(_) => "".to_string()`). -/
def etaRepr (parseRfc : String → Option Int) (api_timestamp : Int) (etaVal : JsonVal) : String :=
  match parse_timestmap parseRfc etaVal with
  | Except.ok t => formatEtaDiff (t - api_timestamp)
  | Except.error _ => ""

/-- The direction match of `search_route_eta` lines 217-221: the queried
direction word selects arrival rows by their `dir` token, `outbound`
matching only `"O"`, `inbound` matching only `"I"`, anything else
matching nothing. -/
def dirMatchB (direction : String) (dir : String) : Bool :=
  if direction = "outbound" then dir == "O"
  else if direction = "inbound" then dir == "I"
  else false

/-- The `bound` token mapping of `load_routes` lines 309-313. -/
def boundMap (b : String) : String :=
  if b = "O" then "outbound"
  else if b = "I" then "inbound"
  else ""

/-- The `route_ids` fold of `search_route_eta` lines 181-191: every feed
row contributes one `(seq, stop_id)` pair, in feed order, no sorting and
no deduplication. -/
def resolveRouteStops (rows : List RouteStopRow) : List (Int × String) :=
  rows.foldl (fun cur r => cur ++ [(r.seq, r.stop)]) []

/-- The `stop_eta` map of `search_route_eta` lines 211-245: fold over the
arrival rows, keep only those whose `dir` token matches the queried
direction, and insert the rendered cell under key `(seq, eta_seq)`
(later inserts overwrite, as `HashMap::insert` does). -/
def stopEtaFold (direction : String) (parseRfc : String → Option Int) (apiTs : Int)
    (rows : List EtaRow) : Int × Int → Option String :=
  rows.foldl
    (fun m row =>
      if dirMatchB direction row.dir then
        fun k => if k = (row.seq, row.eta_seq) then some (etaRepr parseRfc apiTs row.eta) else m k
      else m)
    (fun _ => none)

/-- The filtered route lookup of `search_route_info` lines 346-352 with
both filters supplied (the ETA validation path): fetch the route's
variants (empty when the route number is absent) and retain those whose
direction and service type match. -/
def findFiltered (routes : List (String × List RouteInfo)) (route direction : String)
    (service_type : Int) : List RouteInfo :=
  ((lookupA routes route).getD []).filter
    (fun r => r.direction == direction && r.service_type == service_type)

/-- The output row built for one route-stop entry (`search_route_eta`
lines 256-266): sequence number rendered as text, the stop's display
name, and the three ETA slots looked up at `(seq, 1..3)` with a missing
slot degrading to the empty string. -/
def rowOf (stops : List (String × String)) (etaMap : Int × Int → Option String)
    (p : Int × String) : RouteEtaInfo :=
  { seq := toString p.1
    stop_name := (lookupA stops p.2).getD ""
    t1 := (etaMap (p.1, 1)).getD ""
    t2 := (etaMap (p.1, 2)).getD ""
    t3 := (etaMap (p.1, 3)).getD "" }

/-- The output loop of `search_route_eta` lines 250-268: walk the
route-stop pairs in order, resolve each stop id in the stop directory
(the source's `.unwrap()` panic on a missing id is the `unknownStop`
error), and build one `RouteEtaInfo` row per pair. -/
def joinRows (stops : List (String × String)) (etaMap : Int × Int → Option String) :
    List (Int × String) → Except Err (List RouteEtaInfo)
  | [] => Except.ok []
  | p :: rest =>
    match lookupA stops p.2 with
    | none => Except.error (Err.unknownStop p.2)
    | some name =>
      match joinRows stops etaMap rest with
      | Except.error e => Except.error e
      | Except.ok tail =>
        Except.ok
          ({ seq := toString p.1
             stop_name := name
             t1 := (etaMap (p.1, 1)).getD ""
             t2 := (etaMap (p.1, 2)).getD ""
             t3 := (etaMap (p.1, 3)).getD "" } :: tail)

/-- `search_route_eta`: validate that the route/direction/service-type
variant exists (lines 131-132; failure returns before either fetch task
is spawned), then issue the route-stop and arrival fetches, parse the
feed's `generated_timestamp` (line 209; failure aborts the query), build
the direction-filtered ETA map and join it with the route-stop sequence.
The first component is the trace of issued lookup/fetch events. -/
def search_route_eta (env : Env) (route direction : String) (service_type : Int) :
    List FetchEvent × Except Err (List RouteEtaInfo) :=
  if findFiltered env.routes route direction service_type = [] then
    ([FetchEvent.routeLookup route],
      Except.error (Err.unknownRouteVariant route direction service_type))
  else
    ([FetchEvent.routeLookup route,
       FetchEvent.fetchRouteStop route direction service_type,
       FetchEvent.fetchEta route service_type],
      match parse_timestmap env.parseRfc (env.etaFeed route service_type).generated_timestamp with
      | Except.error e => Except.error (Err.invalidFeedTimestamp e)
      | Except.ok apiTs =>
        joinRows env.stops
          (stopEtaFold direction env.parseRfc apiTs (env.etaFeed route service_type).data)
          (resolveRouteStops (env.routeStopFeed route direction service_type)))

/-- The `Commands::Eta` arm of `main` (lines 429-448): reject the
invocation when the inbound and outbound flags are equal, before any
lookup or fetch; otherwise map the flags to a direction word, upper-case
the route and run `search_route_eta`. -/
def handleEta (env : Env) (route : String) (inbound outbound : Bool) (service_type : Int) :
    List FetchEvent × Except Err (List RouteEtaInfo) :=
  if inbound == outbound then ([], Except.error Err.flagsError)
  else
    let direction := if inbound then "inbound" else "outbound"
    search_route_eta env route.toUpper direction service_type

/-- One record of the bulk route listing as `load_routes` reads it
(`service_type` already decoded from its string encoding; `bound` is the
raw direction token). -/
structure RawRoute where
  route : String
  service_type : Int
  orig_tc : String
  dest_tc : String
  bound : String
deriving Repr, DecidableEq

/-- The `RouteInfo` value `load_routes` builds from one raw record. -/
def mkRouteInfo (d : RawRoute) : RouteInfo :=
  { route := d.route
    service_type := d.service_type
    direction := boundMap d.bound
    orig := d.orig_tc
    dest := d.dest_tc }

/-- The per-record insertion of `load_routes` lines 315-334: append to
the route's existing variant vector, or create a new singleton entry for
a new route number. -/
def insertRoute (m : List (String × List RouteInfo)) (key : String) (ri : RouteInfo) :
    List (String × List RouteInfo) :=
  match m with
  | [] => [(key, [ri])]
  | (k, v) :: rest =>
    if k = key then (k, v ++ [ri]) :: rest
    else (k, v) :: insertRoute rest key ri

/-- `load_routes`: fold the bulk route listing into the route directory
keyed by route number.  The association list stands for the Rust
`HashMap`; its entry order models one admissible (arbitrary) hash-map
iteration order. -/
def load_routes (raws : List RawRoute) : List (String × List RouteInfo) :=
  raws.foldl (fun m d => insertRoute m d.route (mkRouteInfo d)) []

/-- `search_all_route_info` lines 385-392: iterate the route directory
map and concatenate every entry's variant vector, in map-iteration
order. -/
def search_all_route_info (m : List (String × List RouteInfo)) : List RouteInfo :=
  m.foldl (fun cur kv => cur ++ kv.2) []

/-- Modelled from the spec (section 4.5 wording): pad a rendering to "at
least `w` characters"; spec-side counterpart of `padLeft`, for the
refinement statement of the formatter claim. -/
def specPad (w : Nat) (s : String) : String :=
  if s.length < w then String.mk (List.replicate (w - s.length) ' ') ++ s else s

/-- Modelled from the spec (section 4.5 wording): render a delta of
whole seconds as minutes (`delta / 60`, truncating integer division,
padded to at least 3 characters), an `m`, seconds (`delta % 60`, padded
to at least 2 characters) and an `s` when positive, and the literal
`LEAVING` otherwise. -/
def specFormatEta (delta : Int) : String :=
  if delta > 0 then
    specPad 3 (toString (Int.tdiv delta 60)) ++ "m " ++
      specPad 2 (toString (Int.tmod delta 60)) ++ "s"
  else "LEAVING"

/-! Demonstration inputs used by witness and counterexample theorems. -/

/-- A concrete external timestamp parser for witnesses: accepts exactly
the strings `T0` (epoch second 0) and `T125` (epoch second 125). -/
def demoParse : String → Option Int := fun s =>
  if s = "T0" then some 0 else if s = "T125" then some 125 else none

/-- A concrete single-variant environment: route `1A` outbound service
type 1, two stops, a two-row route-stop feed and an arrival feed with
one parseable and one malformed per-row timestamp. -/
def demoEnv : Env :=
  { routes := [("1A",
      [{ route := "1A", service_type := 1, direction := "outbound",
         orig := "Central", dest := "Admiralty" }])]
    stops := [("S1", "Central"), ("S2", "Admiralty")]
    routeStopFeed := fun _ _ _ => [{ seq := 1, stop := "S1" }, { seq := 2, stop := "S2" }]
    etaFeed := fun _ _ =>
      { generated_timestamp := JsonVal.str "T0"
        data := [{ dir := "O", seq := 1, eta_seq := 1, eta := JsonVal.str "T125" },
                 { dir := "O", seq := 2, eta_seq := 1, eta := JsonVal.str "bad" }] }
    parseRfc := demoParse }

/-- Like `demoEnv` but the arrival feed's `generated_timestamp` is not a
string, so the reference timestamp is unparseable. -/
def demoEnvBadTs : Env :=
  { demoEnv with
    etaFeed := fun _ _ => { generated_timestamp := JsonVal.other, data := [] } }

/-- Like `demoEnv` but the route-stop feed references stop id `SX`,
which is absent from the stop directory. -/
def demoEnvNoStop : Env :=
  { demoEnv with
    routeStopFeed := fun _ _ _ => [{ seq := 1, stop := "S1" }, { seq := 2, stop := "SX" }] }

/-! Helper lemmas. -/

theorem padLeft_eq_specPad (w : Nat) (s : String) : padLeft w s = specPad w s := by
  unfold padLeft specPad
  by_cases h : s.length < w
  · rw [if_pos h]
  · rw [if_neg h]
    rw [Nat.sub_eq_zero_of_le (Nat.le_of_not_lt h)]
    rfl

theorem formatEtaDiff_eq_spec (d : Int) : formatEtaDiff d = specFormatEta d := by
  unfold formatEtaDiff specFormatEta
  by_cases h : d > 0
  · rw [if_pos h, if_pos h, padLeft_eq_specPad, padLeft_eq_specPad]
  · rw [if_neg h, if_neg h]

theorem resolveRouteStops_eq_map (rows : List RouteStopRow) :
    resolveRouteStops rows = rows.map (fun r => (r.seq, r.stop)) := by
  have key : ∀ (l : List RouteStopRow) (acc : List (Int × String)),
      l.foldl (fun cur r => cur ++ [(r.seq, r.stop)]) acc =
        acc ++ l.map (fun r => (r.seq, r.stop)) := by
    intro l
    induction l with
    | nil => intro acc; simp
    | cons r rest ih =>
      intro acc
      simp [ih (acc ++ [(r.seq, r.stop)])]
  simpa using key rows []

theorem joinRows_ok (stops : List (String × String)) (m : Int × Int → Option String) :
    ∀ l : List (Int × String), (∀ p ∈ l, (lookupA stops p.2).isSome) →
      joinRows stops m l = Except.ok (l.map (rowOf stops m))
  | [], _ => rfl
  | p :: rest, h => by
    have hp := h p (List.mem_cons_self p rest)
    obtain ⟨name, hname⟩ := Option.isSome_iff_exists.mp hp
    have ih := joinRows_ok stops m rest (fun q hq => h q (List.mem_cons_of_mem p hq))
    unfold joinRows
    rw [hname, ih]
    simp [rowOf, hname]

theorem joinRows_err (stops : List (String × String)) (m : Int × Int → Option String) :
    ∀ l : List (Int × String), (∃ p ∈ l, lookupA stops p.2 = none) →
      ∃ sid, lookupA stops sid = none ∧
        joinRows stops m l = Except.error (Err.unknownStop sid)
  | [], h => absurd h (by simp)
  | p :: rest, h => by
    unfold joinRows
    cases hname : lookupA stops p.2 with
    | none => exact ⟨p.2, hname, rfl⟩
    | some name =>
      have hrest : ∃ q ∈ rest, lookupA stops q.2 = none := by
        obtain ⟨q, hq, hqe⟩ := h
        rcases List.mem_cons.mp hq with rfl | hq2
        · rw [hname] at hqe
          exact absurd hqe (by simp)
        · exact ⟨q, hq2, hqe⟩
      obtain ⟨sid, hsid, heq⟩ := joinRows_err stops m rest hrest
      rw [heq]
      exact ⟨sid, hsid, rfl⟩

theorem search_route_eta_ok_branch (env : Env) (route direction : String) (st : Int)
    (apiTs : Int) (hv : ¬ findFiltered env.routes route direction st = [])
    (hts : parse_timestmap env.parseRfc (env.etaFeed route st).generated_timestamp =
      Except.ok apiTs) :
    search_route_eta env route direction st =
      ([FetchEvent.routeLookup route, FetchEvent.fetchRouteStop route direction st,
         FetchEvent.fetchEta route st],
        joinRows env.stops
          (stopEtaFold direction env.parseRfc apiTs (env.etaFeed route st).data)
          (resolveRouteStops (env.routeStopFeed route direction st))) := by
  unfold search_route_eta
  rw [if_neg hv, hts]

theorem search_route_eta_bad_ts (env : Env) (route direction : String) (st : Int)
    (e : String) (hv : ¬ findFiltered env.routes route direction st = [])
    (hts : parse_timestmap env.parseRfc (env.etaFeed route st).generated_timestamp =
      Except.error e) :
    search_route_eta env route direction st =
      ([FetchEvent.routeLookup route, FetchEvent.fetchRouteStop route direction st,
         FetchEvent.fetchEta route st],
        Except.error (Err.invalidFeedTimestamp e)) := by
  unfold search_route_eta
  rw [if_neg hv, hts]

theorem search_all_eq_join (m : List (String × List RouteInfo)) :
    search_all_route_info m = (m.map Prod.snd).flatten := by
  have key : ∀ (l : List (String × List RouteInfo)) (acc : List RouteInfo),
      l.foldl (fun cur kv => cur ++ kv.2) acc = acc ++ (l.map Prod.snd).flatten := by
    intro l
    induction l with
    | nil => intro acc; simp
    | cons kv rest ih =>
      intro acc
      simp [ih (acc ++ kv.2)]
  simpa [search_all_route_info] using key m []

theorem join_insertRoute_perm (m : List (String × List RouteInfo)) (k : String)
    (ri : RouteInfo) :
    (((insertRoute m k ri).map Prod.snd).flatten).Perm ((m.map Prod.snd).flatten ++ [ri]) := by
  induction m with
  | nil => simp [insertRoute]
  | cons kv rest ih =>
    obtain ⟨k0, v⟩ := kv
    by_cases hk : k0 = k
    · rw [show insertRoute ((k0, v) :: rest) k ri = (k0, v ++ [ri]) :: rest by
        simp [insertRoute, hk]]
      simp only [List.map_cons, List.flatten_cons, List.append_assoc]
      exact List.Perm.append_left v (List.perm_append_comm.trans (by simp))
    · rw [show insertRoute ((k0, v) :: rest) k ri = (k0, v) :: insertRoute rest k ri by
        simp [insertRoute, hk]]
      simp only [List.map_cons, List.flatten_cons, List.append_assoc]
      exact List.Perm.append_left v ih

theorem load_routes_perm_aux (raws : List RawRoute) :
    ∀ m : List (String × List RouteInfo),
      (((raws.foldl (fun acc d => insertRoute acc d.route (mkRouteInfo d)) m).map
        Prod.snd).flatten).Perm ((m.map Prod.snd).flatten ++ raws.map mkRouteInfo) := by
  induction raws with
  | nil => intro m; simp
  | cons d rest ih =>
    intro m
    rw [List.foldl_cons]
    refine (ih (insertRoute m d.route (mkRouteInfo d))).trans ?_
    refine ((join_insertRoute_perm m d.route (mkRouteInfo d)).append_right _).trans ?_
    simp [List.append_assoc]

theorem search_all_load_perm (raws : List RawRoute) :
    (search_all_route_info (load_routes raws)).Perm (raws.map mkRouteInfo) := by
  rw [search_all_eq_join]
  simpa [load_routes] using load_routes_perm_aux raws []

theorem insertRoute_keys (m : List (String × List RouteInfo)) (k : String) (ri : RouteInfo) :
    (insertRoute m k ri).map Prod.fst =
      if k ∈ m.map Prod.fst then m.map Prod.fst else m.map Prod.fst ++ [k] := by
  induction m with
  | nil => simp [insertRoute]
  | cons kv rest ih =>
    obtain ⟨k0, v⟩ := kv
    by_cases hk : k0 = k
    · subst hk
      simp [insertRoute]
    · rw [show insertRoute ((k0, v) :: rest) k ri = (k0, v) :: insertRoute rest k ri by
        simp [insertRoute, hk]]
      simp only [List.map_cons, ih]
      by_cases hm : k ∈ rest.map Prod.fst
      · rw [if_pos hm, if_pos (List.mem_cons_of_mem k0 hm)]
      · rw [if_neg hm, if_neg (by
          intro hc
          rcases List.mem_cons.mp hc with hc1 | hc2
          · exact hk hc1.symm
          · exact hm hc2)]
        simp

theorem insertRoute_keys_nodup (m : List (String × List RouteInfo)) (k : String)
    (ri : RouteInfo) (h : (m.map Prod.fst).Nodup) :
    ((insertRoute m k ri).map Prod.fst).Nodup := by
  rw [insertRoute_keys]
  by_cases hm : k ∈ m.map Prod.fst
  · rw [if_pos hm]; exact h
  · rw [if_neg hm]
    simp [List.nodup_append, h, hm]

theorem load_routes_keys_nodup (raws : List RawRoute) :
    ((load_routes raws).map Prod.fst).Nodup := by
  have key : ∀ (l : List RawRoute) (m : List (String × List RouteInfo)),
      (m.map Prod.fst).Nodup →
        (((l.foldl (fun acc d => insertRoute acc d.route (mkRouteInfo d)) m).map
          Prod.fst)).Nodup := by
    intro l
    induction l with
    | nil => intro m hm; simpa using hm
    | cons d rest ih =>
      intro m hm
      rw [List.foldl_cons]
      exact ih _ (insertRoute_keys_nodup m d.route (mkRouteInfo d) hm)
  exact key raws [] (by simp)

theorem lookupA_insertRoute_self (m : List (String × List RouteInfo)) (k : String)
    (ri : RouteInfo) :
    lookupA (insertRoute m k ri) k = some ((lookupA m k).getD [] ++ [ri]) := by
  induction m with
  | nil => simp [insertRoute, lookupA]
  | cons kv rest ih =>
    obtain ⟨k0, v⟩ := kv
    by_cases hk : k0 = k
    · subst hk
      simp [insertRoute, lookupA]
    · rw [show insertRoute ((k0, v) :: rest) k ri = (k0, v) :: insertRoute rest k ri by
        simp [insertRoute, hk]]
      simp [lookupA, hk, ih]

theorem lookupA_insertRoute_ne (m : List (String × List RouteInfo)) (k key : String)
    (ri : RouteInfo) (h : k ≠ key) :
    lookupA (insertRoute m k ri) key = lookupA m key := by
  induction m with
  | nil => simp [insertRoute, lookupA, h]
  | cons kv rest ih =>
    obtain ⟨k0, v⟩ := kv
    by_cases hk : k0 = k
    · subst hk
      simp [insertRoute, lookupA, h]
    · rw [show insertRoute ((k0, v) :: rest) k ri = (k0, v) :: insertRoute rest k ri by
        simp [insertRoute, hk]]
      by_cases hk0 : k0 = key
      · simp [lookupA, hk0]
      · simp [lookupA, hk0, ih]

/-- Combination of an earlier bucket with a group of newly filtered
records, used to state the bucket invariant of `load_routes`. -/
def mergeOpt (o : Option (List RouteInfo)) (g : List RouteInfo) : Option (List RouteInfo) :=
  match o with
  | some v => some (v ++ g)
  | none => if g = [] then none else some g

theorem load_bucket (raws : List RawRoute) :
    ∀ (m : List (String × List RouteInfo)) (k : String),
      lookupA (raws.foldl (fun acc d => insertRoute acc d.route (mkRouteInfo d)) m) k =
        mergeOpt (lookupA m k) ((raws.filter (fun d => d.route == k)).map mkRouteInfo) := by
  induction raws with
  | nil =>
    intro m k
    cases h : lookupA m k <;> simp [mergeOpt, h]
  | cons d rest ih =>
    intro m k
    rw [List.foldl_cons, ih]
    by_cases hd : d.route = k
    · rw [List.filter_cons_of_pos (by simp [hd])]
      rw [show insertRoute m d.route (mkRouteInfo d) = insertRoute m k (mkRouteInfo d) by
        rw [hd]]
      rw [lookupA_insertRoute_self]
      cases h : lookupA m k with
      | none => simp [mergeOpt, h]
      | some v => simp [mergeOpt, h]
    · rw [List.filter_cons_of_neg (by simp [hd])]
      rw [lookupA_insertRoute_ne m d.route k (mkRouteInfo d) hd]

theorem lookupA_of_mem_nodup {α : Type} (m : List (String × α)) (kv : String × α)
    (hnd : (m.map Prod.fst).Nodup) (hm : kv ∈ m) : lookupA m kv.1 = some kv.2 := by
  induction m with
  | nil => cases hm
  | cons e rest ih =>
    rcases List.mem_cons.mp hm with rfl | h2
    · simp [lookupA]
    · rw [List.map_cons] at hnd
      have hnd2 := List.nodup_cons.mp hnd
      have hne : e.1 ≠ kv.1 := by
        intro he
        exact hnd2.1 (he ▸ List.mem_map_of_mem Prod.fst h2)
      simp [lookupA, hne, ih hnd2.2 h2]

/-! Claim theorems. -/

/-- C1: ETA Formatter postcondition.  For every arrival timestamp value
that parses (to epoch second `t`), the rendered cell equals the
spec-side rendering of `delta = t - reference`: for `delta > 0` the
string `"<minutes>m <seconds>s"` with `minutes = delta / 60` (truncating
division) padded to at least 3 characters and `seconds = delta % 60`
padded to at least 2 characters, and `"LEAVING"` for `delta ≤ 0`; in
particular `delta = 125` renders as `"  2m  5s"` and `delta = 0` and
`delta = -5` render as `"LEAVING"`. -/
theorem eta_formatter_spec (parseRfc : String → Option Int) (ref t : Int) (v : JsonVal)
    (h : parse_timestmap parseRfc v = Except.ok t) :
    etaRepr parseRfc ref v = specFormatEta (t - ref) ∧
      specFormatEta 125 = "  2m  5s" ∧
      specFormatEta 0 = "LEAVING" ∧
      specFormatEta (-5) = "LEAVING" := by
  refine ⟨?_, by decide, rfl, rfl⟩
  unfold etaRepr
  rw [h]
  exact formatEtaDiff_eq_spec (t - ref)

/-- Witness for C1 at the concrete parser `demoParse`, reference 0 and
arrival value `"T125"` (delta 125). -/
theorem eta_formatter_spec_witness :
    parse_timestmap demoParse (JsonVal.str "T125") = Except.ok 125 ∧
      (etaRepr demoParse 0 (JsonVal.str "T125") = specFormatEta (125 - 0) ∧
        specFormatEta 125 = "  2m  5s" ∧
        specFormatEta 0 = "LEAVING" ∧
        specFormatEta (-5) = "LEAVING") :=
  ⟨rfl, eta_formatter_spec demoParse 0 125 (JsonVal.str "T125") rfl⟩

/-- C2: direction token mapping is total and exhaustive.  On the arrival
side `"O"` matches exactly the outbound query and `"I"` exactly the
inbound query; on the route-record side `load_routes` maps `"O"` to
`outbound` and `"I"` to `inbound`; any other token matches neither
direction-filtered query (arrival rows via `dirMatchB`, route records
via the empty direction word, which direction-filtered `findFiltered`
never selects) and, both mappings being total functions with a
catch-all branch, no error is raised. -/
theorem direction_token_mapping (d : String) (hO : d ≠ "O") (hI : d ≠ "I") :
    dirMatchB "outbound" "O" = true ∧ dirMatchB "inbound" "I" = true ∧
      boundMap "O" = "outbound" ∧ boundMap "I" = "inbound" ∧
      dirMatchB "outbound" d = false ∧ dirMatchB "inbound" d = false ∧
      boundMap d = "" ∧
      (∀ (routes : List (String × List RouteInfo)) (route : String) (st : Int)
        (ri : RouteInfo), ri ∈ findFiltered routes route "inbound" st →
          ri.direction = "inbound") ∧
      (∀ (routes : List (String × List RouteInfo)) (route : String) (st : Int)
        (ri : RouteInfo), ri ∈ findFiltered routes route "outbound" st →
          ri.direction = "outbound") := by
  refine ⟨rfl, rfl, rfl, rfl, ?_, ?_, ?_, ?_, ?_⟩
  · show (d == "O") = false
    exact beq_eq_false_iff_ne.mpr hO
  · show (d == "I") = false
    exact beq_eq_false_iff_ne.mpr hI
  · unfold boundMap
    rw [if_neg hO, if_neg hI]
  · intro routes route st ri hri
    have hf := (List.mem_filter.mp hri).2
    simp only [Bool.and_eq_true, beq_iff_eq] at hf
    exact hf.1
  · intro routes route st ri hri
    have hf := (List.mem_filter.mp hri).2
    simp only [Bool.and_eq_true, beq_iff_eq] at hf
    exact hf.1

/-- Witness for C2 at the concrete unnamed token `"X"`. -/
theorem direction_token_mapping_witness :
    ("X" : String) ≠ "O" ∧ ("X" : String) ≠ "I" ∧
      dirMatchB "outbound" "X" = false ∧ dirMatchB "inbound" "X" = false ∧
      boundMap "X" = "" :=
  ⟨by decide, by decide,
    (direction_token_mapping "X" (by decide) (by decide)).2.2.2.2.1,
    (direction_token_mapping "X" (by decide) (by decide)).2.2.2.2.2.1,
    (direction_token_mapping "X" (by decide) (by decide)).2.2.2.2.2.2.1⟩

/-- C3: for every ETA query whose route/direction/service-type
combination is absent from the route directory (the filtered lookup is
empty), `search_route_eta` fails with `unknownRouteVariant` carrying the
attempted route, direction and service type, and the event trace holds
only the validation lookup — neither the route-stop fetch nor the
arrival fetch was issued. -/
theorem eta_validates_before_fetch (env : Env) (route direction : String) (st : Int)
    (h : findFiltered env.routes route direction st = []) :
    search_route_eta env route direction st =
      ([FetchEvent.routeLookup route],
        Except.error (Err.unknownRouteVariant route direction st)) := by
  unfold search_route_eta
  rw [if_pos h]

/-- Witness for C3: in `demoEnv` the route `9Z` has no variants, so the
outbound service-type-1 ETA query fails before any fetch. -/
theorem eta_validates_before_fetch_witness :
    findFiltered demoEnv.routes "9Z" "outbound" 1 = [] ∧
      search_route_eta demoEnv "9Z" "outbound" 1 =
        ([FetchEvent.routeLookup "9Z"],
          Except.error (Err.unknownRouteVariant "9Z" "outbound" 1)) :=
  ⟨by decide, eta_validates_before_fetch demoEnv "9Z" "outbound" 1 (by decide)⟩

/-- A route-stop feed whose rows are not ascending by sequence. -/
def c4rows : List RouteStopRow := [{ seq := 2, stop := "a" }, { seq := 1, stop := "b" }]

/-- C4 counterexample: the claim says the resolved route-stop sequence
is ordered ascending by `sequence` for every query, but the resolver
performs no sort — on the concrete feed `[(2, a), (1, b)]` the resolved
sequence is `[(2, a), (1, b)]`, which is not ascending. -/
theorem route_stop_order_counterexample :
    ¬ List.Chain' (fun a b : Int × String => a.1 ≤ b.1) (resolveRouteStops c4rows) := by
  intro h
  have e : resolveRouteStops c4rows = [((2 : Int), "a"), ((1 : Int), "b")] := by decide
  rw [e, List.chain'_cons] at h
  exact absurd h.1 (by decide)

/-- C4 (amended): the resolved sequence of route-stop entries preserves
the upstream feed order exactly — one `(sequence, stop_id)` pair per
feed row, same length (duplicates of the same sequence value retained in
feed order, nothing deduplicated) — and it is ordered ascending by
`sequence` whenever the upstream feed rows are ascending by sequence;
no sorting is performed. -/
theorem route_stop_order (rows : List RouteStopRow) :
    resolveRouteStops rows = rows.map (fun r => (r.seq, r.stop)) ∧
      (resolveRouteStops rows).length = rows.length ∧
      (List.Chain' (fun a b => a.seq ≤ b.seq) rows →
        List.Chain' (fun a b : Int × String => a.1 ≤ b.1) (resolveRouteStops rows)) := by
  refine ⟨resolveRouteStops_eq_map rows, ?_, ?_⟩
  · rw [resolveRouteStops_eq_map]
    simp
  · intro h
    rw [resolveRouteStops_eq_map, List.chain'_map]
    exact h

/-- Witness for C4 on a concrete ascending feed with a duplicated
sequence value. -/
theorem route_stop_order_witness :
    List.Chain'
      (fun a b : RouteStopRow => a.seq ≤ b.seq)
      [{ seq := 1, stop := "x" }, { seq := 1, stop := "y" }, { seq := 2, stop := "z" }] ∧
      List.Chain' (fun a b : Int × String => a.1 ≤ b.1)
        (resolveRouteStops
          [{ seq := 1, stop := "x" }, { seq := 1, stop := "y" }, { seq := 2, stop := "z" }]) :=
  ⟨by
    rw [List.chain'_cons, List.chain'_cons]
    exact ⟨by decide, by decide, List.chain'_singleton _⟩,
    (route_stop_order
      [{ seq := 1, stop := "x" }, { seq := 1, stop := "y" }, { seq := 2, stop := "z" }]).2.2
      (by
        rw [List.chain'_cons, List.chain'_cons]
        exact ⟨by decide, by decide, List.chain'_singleton _⟩)⟩

/-- C5: a per-row arrival timestamp that is absent or fails to parse
renders as the empty string, and the ETA query as a whole still
succeeds: with the route variant present, the reference timestamp
parseable and every route-stop id in the stop directory, the query
returns rows no matter what the per-row arrival values are. -/
theorem per_row_parse_failure_degrades (env : Env) (route direction : String) (st : Int)
    (v : JsonVal) (msg : String) (apiTs refTs : Int)
    (hrow : parse_timestmap env.parseRfc v = Except.error msg)
    (hv : ¬ findFiltered env.routes route direction st = [])
    (hts : parse_timestmap env.parseRfc (env.etaFeed route st).generated_timestamp =
      Except.ok refTs)
    (hstops : ∀ r ∈ env.routeStopFeed route direction st, (lookupA env.stops r.stop).isSome) :
    etaRepr env.parseRfc apiTs v = "" ∧
      ∃ rows, (search_route_eta env route direction st).2 = Except.ok rows := by
  constructor
  · unfold etaRepr
    rw [hrow]
  · have hall : ∀ p ∈ resolveRouteStops (env.routeStopFeed route direction st),
        (lookupA env.stops p.2).isSome := by
      intro p hp
      rw [resolveRouteStops_eq_map] at hp
      obtain ⟨r, hr, rfl⟩ := List.mem_map.mp hp
      exact hstops r hr
    rw [search_route_eta_ok_branch env route direction st refTs hv hts]
    exact ⟨_, joinRows_ok env.stops _ _ hall⟩

/-- Witness for C5: in `demoEnv` the second arrival row carries the
unparseable value `"bad"`; its cell is empty and the query succeeds. -/
theorem per_row_parse_failure_degrades_witness :
    parse_timestmap demoParse (JsonVal.str "bad") =
        Except.error ("Failed to parse timestamp string " ++ "bad") ∧
      (etaRepr demoParse 0 (JsonVal.str "bad") = "" ∧
        ∃ rows, (search_route_eta demoEnv "1A" "outbound" 1).2 = Except.ok rows) :=
  ⟨rfl,
    per_row_parse_failure_degrades demoEnv "1A" "outbound" 1 (JsonVal.str "bad")
      ("Failed to parse timestamp string " ++ "bad") 0 0 rfl (by decide) rfl (by decide)⟩

/-- C6: if the arrival feed's `generated_timestamp` is absent or
unparseable, the whole ETA query fails with `invalidFeedTimestamp` — the
second component is the error, so no row is produced — for every query
that passed route validation. -/
theorem feed_timestamp_failure_fatal (env : Env) (route direction : String) (st : Int)
    (e : String) (hv : ¬ findFiltered env.routes route direction st = [])
    (hts : parse_timestmap env.parseRfc (env.etaFeed route st).generated_timestamp =
      Except.error e) :
    (search_route_eta env route direction st).2 =
      Except.error (Err.invalidFeedTimestamp e) := by
  rw [search_route_eta_bad_ts env route direction st e hv hts]

/-- Witness for C6: `demoEnvBadTs` serves a non-string
`generated_timestamp`, and the `1A` outbound query fails with
`invalidFeedTimestamp`. -/
theorem feed_timestamp_failure_fatal_witness :
    parse_timestmap demoEnvBadTs.parseRfc
        (demoEnvBadTs.etaFeed "1A" 1).generated_timestamp =
        Except.error "Failed to parse timestamp string" ∧
      (search_route_eta demoEnvBadTs "1A" "outbound" 1).2 =
        Except.error (Err.invalidFeedTimestamp "Failed to parse timestamp string") :=
  ⟨rfl,
    feed_timestamp_failure_fatal demoEnvBadTs "1A" "outbound" 1
      "Failed to parse timestamp string" (by decide) rfl⟩

/-- C7: the ETA join.  When every stop id of the route-stop sequence
resolves in the stop directory, the output is exactly one row per input
entry, in the input order, whose three slots are the direction-filtered
arrival map's entries at `(sequence, 1)`, `(sequence, 2)`,
`(sequence, 3)` when present and the empty string when absent (the
`getD ""` in `rowOf`) — and no error is raised by missing slots. -/
theorem eta_join_rows (stops : List (String × String)) (m : Int × Int → Option String)
    (l : List (Int × String)) (h : ∀ p ∈ l, (lookupA stops p.2).isSome) :
    joinRows stops m l = Except.ok (l.map (rowOf stops m)) :=
  joinRows_ok stops m l h

/-- A concrete direction-filtered arrival map holding only slot 1 of
sequence 1, used by the C7 witness. -/
def demoSlotMap : Int × Int → Option String :=
  fun k => if k = ((1 : Int), (1 : Int)) then some "  2m  5s" else none

/-- Witness for C7 on `demoEnv`'s stop directory and a two-entry
route-stop sequence: all slots of sequence 2 and slots 2 and 3 of
sequence 1 are absent and render as empty strings. -/
theorem eta_join_rows_witness :
    (∀ p ∈ [((1 : Int), "S1"), ((2 : Int), "S2")], (lookupA demoEnv.stops p.2).isSome) ∧
      joinRows demoEnv.stops demoSlotMap [((1 : Int), "S1"), ((2 : Int), "S2")] =
        Except.ok
          [{ seq := "1", stop_name := "Central", t1 := "  2m  5s", t2 := "", t3 := "" },
           { seq := "2", stop_name := "Admiralty", t1 := "", t2 := "", t3 := "" }] :=
  ⟨by decide,
    (eta_join_rows demoEnv.stops demoSlotMap [((1 : Int), "S1"), ((2 : Int), "S2")]
      (by decide)).trans (by rfl)⟩

/-- C8: a route-stop entry whose stop id is absent from the stop
directory makes the ETA query fail with `unknownStop` (the source's
`.unwrap()` abort on the missing id) rather than silently dropping the
row: under route validation and a parseable reference timestamp, if some
route-stop row references an unknown stop id, the query's result is the
`unknownStop` error for an absent id. -/
theorem missing_stop_fails (env : Env) (route direction : String) (st : Int) (refTs : Int)
    (hv : ¬ findFiltered env.routes route direction st = [])
    (hts : parse_timestmap env.parseRfc (env.etaFeed route st).generated_timestamp =
      Except.ok refTs)
    (hbad : ∃ r ∈ env.routeStopFeed route direction st, lookupA env.stops r.stop = none) :
    ∃ sid, lookupA env.stops sid = none ∧
      (search_route_eta env route direction st).2 =
        Except.error (Err.unknownStop sid) := by
  have hex : ∃ p ∈ resolveRouteStops (env.routeStopFeed route direction st),
      lookupA env.stops p.2 = none := by
    obtain ⟨r, hr, hre⟩ := hbad
    refine ⟨(r.seq, r.stop), ?_, hre⟩
    rw [resolveRouteStops_eq_map]
    exact List.mem_map_of_mem _ hr
  obtain ⟨sid, hsid, heq⟩ :=
    joinRows_err env.stops
      (stopEtaFold direction env.parseRfc refTs (env.etaFeed route st).data) _ hex
  refine ⟨sid, hsid, ?_⟩
  rw [search_route_eta_ok_branch env route direction st refTs hv hts]
  exact heq

/-- Witness for C8: in `demoEnvNoStop` the route-stop feed references
stop id `SX`, which the stop directory lacks; the query fails with
`unknownStop`. -/
theorem missing_stop_fails_witness :
    lookupA demoEnvNoStop.stops "SX" = none ∧
      ∃ sid, lookupA demoEnvNoStop.stops sid = none ∧
        (search_route_eta demoEnvNoStop "1A" "outbound" 1).2 =
          Except.error (Err.unknownStop sid) :=
  ⟨rfl,
    missing_stop_fails demoEnvNoStop "1A" "outbound" 1 0 (by decide) rfl
      ⟨{ seq := 2, stop := "SX" }, by decide, rfl⟩⟩

/-- Two raw route records whose route numbers arrive in descending
order, standing for a hash-map iteration order that is not sorted. -/
def c9rawB : RawRoute :=
  { route := "B", service_type := 1, orig_tc := "ob", dest_tc := "db", bound := "O" }

/-- Companion record to `c9rawB` with the smaller route number. -/
def c9rawA : RawRoute :=
  { route := "A", service_type := 1, orig_tc := "oa", dest_tc := "da", bound := "O" }

/-- C9 counterexample: the claim says the full listing is ordered by
route number, but `search_all_route_info` concatenates the directory in
map-iteration order without sorting — for the directory loaded from
records `B` then `A` (one admissible hash-map iteration order), the
listing is `[B, A]`, which is not ordered by route number. -/
theorem all_route_listing_counterexample :
    ¬ List.Chain' (fun a b : RouteInfo => a.route ≤ b.route)
      (search_all_route_info (load_routes [c9rawB, c9rawA])) := by
  intro h
  have e : search_all_route_info (load_routes [c9rawB, c9rawA]) =
      [mkRouteInfo c9rawB, mkRouteInfo c9rawA] := by decide
  rw [e, List.chain'_cons] at h
  have hle : ("B" : String) ≤ "A" := h.1
  rw [String.le_iff_toList_le] at hle
  exact absurd hle (by decide)

/-- C9 (amended): the full listing contains every loaded route variant
(it is a permutation of the records of the bulk route listing), it is
the concatenation of the directory's per-route groups, each route number
keys exactly one group, and each group holds exactly that route's
records in feed order — so the output is grouped by route number, but
the groups appear in map-iteration order, which is not necessarily
sorted by route number. -/
theorem all_route_listing (raws : List RawRoute) :
    (search_all_route_info (load_routes raws)).Perm (raws.map mkRouteInfo) ∧
      search_all_route_info (load_routes raws) =
        ((load_routes raws).map Prod.snd).flatten ∧
      ((load_routes raws).map Prod.fst).Nodup ∧
      ∀ kv ∈ load_routes raws,
        kv.2 = (raws.filter (fun d => d.route == kv.1)).map mkRouteInfo := by
  refine ⟨search_all_load_perm raws, search_all_eq_join _, load_routes_keys_nodup raws, ?_⟩
  intro kv hkv
  have h1 := lookupA_of_mem_nodup (load_routes raws) kv (load_routes_keys_nodup raws) hkv
  have h2 := load_bucket raws [] kv.1
  rw [show (List.foldl (fun acc d => insertRoute acc d.route (mkRouteInfo d)) [] raws) =
      load_routes raws from rfl] at h2
  rw [h1] at h2
  by_cases hg : (raws.filter (fun d => d.route == kv.1)).map mkRouteInfo = []
  · rw [show lookupA ([] : List (String × List RouteInfo)) kv.1 = none from rfl] at h2
    unfold mergeOpt at h2
    rw [if_pos hg] at h2
    exact absurd h2 (by simp)
  · rw [show lookupA ([] : List (String × List RouteInfo)) kv.1 = none from rfl] at h2
    unfold mergeOpt at h2
    rw [if_neg hg] at h2
    exact Option.some_injective _ h2

/-- Witness for C9 on the concrete two-record listing: the directory
bucket of route `B` is exactly the filtered records of route `B`. -/
theorem all_route_listing_witness :
    ("B", [mkRouteInfo c9rawB]) ∈ load_routes [c9rawB, c9rawA] ∧
      ([mkRouteInfo c9rawB] : List RouteInfo) =
        ([c9rawB, c9rawA].filter (fun d => d.route == "B")).map mkRouteInfo :=
  ⟨by decide,
    (all_route_listing [c9rawB, c9rawA]).2.2.2 ("B", [mkRouteInfo c9rawB]) (by decide)⟩

/-- C10: for every ETA invocation with the inbound and outbound flags
equal (both set or both unset), the handler fails with the usage error
and the event trace is empty — no route lookup, route-stop fetch or
arrival fetch was performed. -/
theorem eta_flags_guard (env : Env) (route : String) (inbound outbound : Bool) (st : Int)
    (h : inbound = outbound) :
    handleEta env route inbound outbound st = ([], Except.error Err.flagsError) := by
  unfold handleEta
  rw [if_pos (by rw [h]; exact beq_self_eq_true outbound)]

/-- Witness for C10 with both flags set on `demoEnv`. -/
theorem eta_flags_guard_witness :
    handleEta demoEnv "1a" true true 1 = ([], Except.error Err.flagsError) :=
  eta_flags_guard demoEnv "1a" true true 1 rfl

end KmbEta
